import Mathlib

/-!
Shallow embedding of the mesos-dns supervisor (`src/app.go`) and proofs of
the specification's claims about it.

The Go program is a lifecycle supervisor: an `app` struct with two one-shot
signal channels (`ready`, `done`), plugin registration hooks gated on the
`ready` channel, a sanitizing `Config` accessor, a capacity-1 reload request
channel with a sequential worker, a leader watcher with a static fallback
mode, and a run loop fanning in leader events and error streams.

Go channel idioms are embedded as follows: a closed one-shot signal channel
is a `Bool` (`true` = closed); a buffered `chan struct{}` of capacity 1 is a
`Nat` occupancy count bounded by the capacity; a `select` with a `default`
on a closed/occupied channel is an `if` on that state; `panic` is the
`panicked` constructor of `GoResult`; Go slices, where aliasing matters
(the `Config` accessor), are references into an explicit store.
-/

namespace MesosDNS

/-- Result of a Go call that may panic: either a panic with its message, or a
normal result. -/
inductive GoResult (α : Type) where
  | panicked (msg : String)
  | ok (a : α)
  deriving Repr, DecidableEq

/-- A reference to a Go slice of strings, an index into the `Store`. -/
abbrev SliceRef := Nat

/-- The slice store: each allocated `[]string` lives at its index. -/
abbrev Store := List (List String)

/-- `make([]string, ...)`: append a fresh slice to the store and return its
reference. -/
def allocSlice (st : Store) (xs : List String) : Store × SliceRef :=
  (st ++ [xs], st.length)

/-- Read the contents of a slice reference (out-of-range reads as empty). -/
def readSlice (st : Store) (r : SliceRef) : List String :=
  (st[r]?).getD []

/-- Overwrite the slice at reference `r` (mutation of a Go slice's elements). -/
def writeSlice (st : Store) (r : SliceRef) (xs : List String) : Store :=
  st.set r xs

/-- One entry of `records.Config.Plugins`: a plugin name and its opaque
JSON settings blob (modelled as an abstract token). -/
structure PluginConfig where
  name : String
  settings : Nat
  deriving Repr, DecidableEq

/-- The fields of `records.Config` used by `app.go`.  `masters` and
`resolvers` are slice references (`[]string` in Go); `plugins` is `none`
when the Go slice is nil. -/
structure Config where
  masters : Nat
  resolvers : Nat
  plugins : Option (List PluginConfig)
  zk : String
  refreshSeconds : Nat
  dnsOn : Bool
  httpOn : Bool
  deriving Repr, DecidableEq

/-- Abstract handles registered through the plugin surface. -/
abbrev Reloader := Nat

/-- A query filter handle (`plugins.Filter`); a Go nil filter is `none`. -/
abbrev Filter := Nat

/-- A restful web service handle. -/
abbrev WebService := Nat

/-- The observable state of the `app` struct together with the external
registries its methods mutate: the resolver's preload/postload hook lists,
the app's own `filters` slice, and the global restful web-service registry.
`ready` and `done` are `true` when the corresponding one-shot channel has
been closed. -/
structure App where
  config : Config
  store : Store
  preloads : List Reloader
  postloads : List Reloader
  filters : List Filter
  webServices : List WebService
  ready : Bool
  done : Bool
  deriving Repr, DecidableEq

/-- `(c *app) OnPreload` (app.go:54-61): panics if `ready` is closed, else
registers the preload reloader with the resolver. -/
def App.onPreload (c : App) (r : Reloader) : GoResult App :=
  if c.ready then
    .panicked "cannot OnPreload after initialization has completed"
  else
    .ok { c with preloads := c.preloads ++ [r] }

/-- `(c *app) OnPostload` (app.go:63-70): panics if `ready` is closed, else
registers the postload reloader with the resolver. -/
def App.onPostload (c : App) (r : Reloader) : GoResult App :=
  if c.ready then
    .panicked "cannot OnPostload after initialization has completed"
  else
    .ok { c with postloads := c.postloads ++ [r] }

/-- `(c *app) AddFilter` (app.go:72-81): panics if `ready` is closed;
otherwise appends the filter to `c.filters` when it is non-nil and does
nothing when it is nil. -/
def App.addFilter (c : App) (f : Option Filter) : GoResult App :=
  if c.ready then
    .panicked "cannot AddFilter after initialization has completed"
  else
    .ok (match f with
      | some g => { c with filters := c.filters ++ [g] }
      | none => c)

/-- `(c *app) RegisterWS` (app.go:83-90): panics if `ready` is closed, else
adds the web service to the global restful container. -/
def App.registerWS (c : App) (ws : WebService) : GoResult App :=
  if c.ready then
    .panicked "cannot RegisterWS after initialization has completed"
  else
    .ok { c with webServices := c.webServices ++ [ws] }

/-- The four registration operation kinds of the plugin surface, with their
arguments. -/
inductive RegOp where
  | preload (r : Reloader)
  | postload (r : Reloader)
  | filter (f : Option Filter)
  | registerWS (ws : WebService)
  deriving Repr, DecidableEq

/-- Dispatch a registration operation to the corresponding `app` method. -/
def App.applyReg (c : App) : RegOp → GoResult App
  | .preload r => c.onPreload r
  | .postload r => c.onPostload r
  | .filter f => c.addFilter f
  | .registerWS ws => c.registerWS ws

/-- The panic message each registration operation produces after `ready`. -/
def regPanicMsg : RegOp → String
  | .preload _ => "cannot OnPreload after initialization has completed"
  | .postload _ => "cannot OnPostload after initialization has completed"
  | .filter _ => "cannot AddFilter after initialization has completed"
  | .registerWS _ => "cannot RegisterWS after initialization has completed"

/-- The registration each operation performs when invoked before `ready`. -/
def regEffect (c : App) : RegOp → App
  | .preload r => { c with preloads := c.preloads ++ [r] }
  | .postload r => { c with postloads := c.postloads ++ [r] }
  | .filter (some g) => { c with filters := c.filters ++ [g] }
  | .filter none => c
  | .registerWS ws => { c with webServices := c.webServices ++ [ws] }

/-- `(c *app) run`'s lifecycle gate (app.go:200-211): panics when invoked
before `ready` is closed, panics when `done` is already closed, and
otherwise proceeds, with `close(c.done)` deferred to the run's completion. -/
def App.runGate (c : App) : GoResult App :=
  if c.ready then
    if c.done then .panicked "run already completed"
    else .ok { c with done := true }
  else .panicked "cannot run, not yet initialized"

/-- The capacity of the `reloadSignal` channel: `make(chan struct{}, 1)`
(app.go:177). -/
def reloadSignalCap : Nat := 1

/-- The `tryReload` closure (app.go:178-184): a non-blocking send on the
capacity-1 `reloadSignal` channel.  `pending` is the channel's occupancy;
if there is room the request is enqueued, otherwise the `default` branch
drops it.  Always returns (never blocks). -/
def tryReload (pending : Nat) : Nat :=
  if pending < reloadSignalCap then pending + 1 else pending

/-- `N` successive `tryReload` calls arriving before the worker dequeues. -/
def tryReloadN : Nat → Nat → Nat
  | 0, p => p
  | n + 1, p => tryReloadN n (tryReload p)

/-- One nanosecond-granularity second, Go's `time.Second`. -/
def timeSecond : Nat := 1000000000

/-- `reloadTimeout` (app.go:189): `time.Second * time.Duration(c.config.RefreshSeconds)`. -/
def reloadTimeout (c : Config) : Nat := timeSecond * c.refreshSeconds

/-- Observable steps of the reload worker goroutine. -/
inductive ReloadAction where
  | reload
  | printCurLog
  | resetTimer (timeout : Nat)
  deriving Repr, DecidableEq

/-- The body of the reload worker's loop for one dequeued request
(app.go:191-195): `c.resolver.Reload(); logging.PrintCurLog();
reloadTimer.Reset(reloadTimeout)`. -/
def reloadWorkerBody (c : Config) : List ReloadAction :=
  [.reload, .printCurLog, .resetTimer (reloadTimeout c)]

/-- The reload worker servicing `n` dequeued requests strictly one at a
time: the `for _ = range reloadSignal` loop (app.go:191-195) unrolled over
a trace of `n` deliveries. -/
def reloadWorkerRun (c : Config) : Nat → List ReloadAction
  | 0 => []
  | n + 1 => reloadWorkerBody c ++ reloadWorkerRun c n

/-- Outcome of `beginLeaderWatch` (app.go:161-171): the capacity of the
returned leadership channel, how many leadership events are already
buffered in it on return, and whether a watcher-error stream exists at all
(in Go a nil `zkErr` channel never emits). -/
structure LeaderWatch where
  leaderCap : Nat
  leaderBuffered : Nat
  zkErrPresent : Bool
  deriving Repr, DecidableEq

/-- `(c *app) beginLeaderWatch` (app.go:161-171): when a ZK endpoint is
configured, delegate to `c.resolver.LaunchZK` (an external collaborator,
passed in as `zkWatch`); otherwise make a capacity-1 leader channel,
buffer a single leadership event into it, and leave `zkErr` nil. -/
def beginLeaderWatch (c : App) (zkWatch : LeaderWatch) : LeaderWatch :=
  if c.config.zk ≠ "" then zkWatch
  else { leaderCap := 1, leaderBuffered := 1, zkErrPresent := false }

/-- An event delivered to the run loop's `select` (app.go:222-231). -/
inductive Event where
  | newLeader
  | dnsError (e : String)
  | zkError (e : String)
  deriving Repr, DecidableEq

/-- Observable actions of one run-loop iteration: a `tryReload()` call, or
a call to `c.errHandler(tag, err)`. -/
inductive Action where
  | reloadRequest
  | routeError (tag : String) (e : String)
  deriving Repr, DecidableEq

/-- One iteration of the run loop's `select` (app.go:222-231), acting on
the reload channel occupancy: a leadership event invokes `tryReload()`
once; a DNS error is routed to the handler tagged "DNS server"; a watcher
error is routed tagged "ZK watcher". -/
def runStep (pending : Nat) : Event → Nat × List Action
  | .newLeader => (tryReload pending, [.reloadRequest])
  | .dnsError e => (pending, [.routeError "DNS server" e])
  | .zkError e => (pending, [.routeError "ZK watcher" e])

/-- The run loop over a finite trace of delivered events. -/
def runLoop (pending : Nat) : List Event → Nat × List Action
  | [] => (pending, [])
  | ev :: evs =>
    let s := runStep pending ev
    let rest := runLoop s.1 evs
    (rest.1, s.2 ++ rest.2)

/-- The leadership events already buffered when `beginLeaderWatch`
returns, as delivered to the run loop's `select` at startup. -/
def initialEvents (w : LeaderWatch) : List Event :=
  List.replicate w.leaderBuffered .newLeader

/-- Log lines emitted by the third-party plugin launch loop. -/
abbrev LaunchLog := List String

/-- The third-party plugin loop of `initialize` (app.go:119-132), ranging
over `c.config.Plugins`.  `resolve` is `plugins.New` (an external
collaborator): it either yields a plugin handle or fails.  An entry with
an empty name, or whose resolution fails, is logged and skipped; a valid
entry is handed to `launchPlugin` under its name.  Returns the launched
`(name, plugin)` list in launch order, together with the error log. -/
def launchThirdParty (resolve : String → Nat → Except String Nat) :
    List PluginConfig → List (String × Nat) × LaunchLog
  | [] => ([], [])
  | pc :: rest =>
    if pc.name = "" then
      let r := launchThirdParty resolve rest
      (r.1, "failed to register plugin with empty name" :: r.2)
    else
      match resolve pc.name pc.settings with
      | .error e =>
        let r := launchThirdParty resolve rest
        (r.1, ("failed to create plugin: " ++ e) :: r.2)
      | .ok plugin =>
        let r := launchThirdParty resolve rest
        ((pc.name, plugin) :: r.1, r.2)

/-- What the loop does with a single entry: `none` when it is skipped,
`some (name, plugin)` when it is launched. -/
def launchOne (resolve : String → Nat → Except String Nat)
    (pc : PluginConfig) : Option (String × Nat) :=
  if pc.name = "" then none
  else
    match resolve pc.name pc.settings with
    | .error _ => none
    | .ok plugin => some (pc.name, plugin)

/-- `(c *app) Config` (app.go:93-101): copy the config struct, nil out the
plugin settings, and replace the master and resolver address slices by
freshly allocated copies of their contents.  Returns the app (whose store
has grown by the two allocations) and the sanitized snapshot. -/
def App.configAccessor (a : App) : App × Config :=
  let mContent := readSlice a.store a.config.masters
  let s1 := allocSlice a.store mContent
  let rContent := readSlice s1.1 a.config.resolvers
  let s2 := allocSlice s1.1 rContent
  ({ a with store := s2.1 },
   { a.config with plugins := none, masters := s1.2, resolvers := s2.2 })

/-- The app's slice references are live references into its store. -/
def App.WF (a : App) : Prop :=
  a.config.masters < a.store.length ∧ a.config.resolvers < a.store.length

instance (a : App) : Decidable a.WF := by
  unfold App.WF; infer_instance

/-! ## Concrete states used by witnesses -/

/-- A concrete configuration: static mode (no ZK endpoint), 60s refresh,
master list at slice 0 and resolver list at slice 1. -/
def sampleConfig : Config :=
  { masters := 0, resolvers := 1, plugins := none, zk := "",
    refreshSeconds := 60, dnsOn := true, httpOn := false }

/-- A concrete app still in its initialization phase (`ready` not closed). -/
def initApp : App :=
  { config := sampleConfig, store := [["m1", "m2"], ["r1"]],
    preloads := [], postloads := [], filters := [], webServices := [],
    ready := false, done := false }

/-- The same app after `initialize` closed the `ready` channel. -/
def readyApp : App := { initApp with ready := true }

/-! ## C1: the registration surface is gated on the Ready phase -/

/-- C1: every registration operation kind (preload, postload, filter
addition, web-service registration) panics when invoked after the `ready`
channel is closed, and succeeds, performing the registration, when invoked
before. -/
theorem registration_ready_gate (c : App) (op : RegOp) :
    (c.ready = true → c.applyReg op = .panicked (regPanicMsg op)) ∧
    (c.ready = false → c.applyReg op = .ok (regEffect c op)) := by
  constructor <;> intro h
  · cases op <;>
      simp [App.applyReg, App.onPreload, App.onPostload, App.addFilter,
        App.registerWS, regPanicMsg, h]
  · cases op with
    | preload r => simp [App.applyReg, App.onPreload, regEffect, h]
    | postload r => simp [App.applyReg, App.onPostload, regEffect, h]
    | filter f =>
      cases f <;> simp [App.applyReg, App.addFilter, regEffect, h]
    | registerWS ws => simp [App.applyReg, App.registerWS, regEffect, h]

/-- Witness for C1 at concrete states: registering a preload hook on a
ready app panics; on a not-yet-ready app it succeeds and registers. -/
theorem registration_ready_gate_witness :
    readyApp.applyReg (.preload 7)
      = .panicked "cannot OnPreload after initialization has completed" ∧
    initApp.applyReg (.preload 7) = .ok (regEffect initApp (.preload 7)) :=
  ⟨(registration_ready_gate readyApp (.preload 7)).1 rfl,
   (registration_ready_gate initApp (.preload 7)).2 rfl⟩

/-! ## C3: the run gate -/

/-- C3: calling `run` before the `ready` channel is closed panics
("cannot run, not yet initialized"), and calling `run` a second time after
a completed run panics ("run already completed"). -/
theorem run_gate_lifecycle (c : App) :
    (c.ready = false → c.runGate = .panicked "cannot run, not yet initialized") ∧
    (∀ c', c.runGate = .ok c' → c'.runGate = .panicked "run already completed") := by
  refine ⟨fun h => by simp [App.runGate, h], fun c' h => ?_⟩
  unfold App.runGate at h ⊢
  by_cases hr : c.ready = true
  · by_cases hd : c.done = true
    · simp [hr, hd] at h
    · simp only [hr, if_true] at h ⊢
      simp only [hd, if_false, Bool.not_eq_true] at h
      cases h
      simp
  · simp [Bool.not_eq_true] at hr
    simp [hr] at h

/-- Witness for C3 at concrete states: running the not-yet-ready app
panics, and a second run after the first completes panics. -/
theorem run_gate_lifecycle_witness :
    initApp.runGate = .panicked "cannot run, not yet initialized" ∧
    ({ readyApp with done := true } : App).runGate = .panicked "run already completed" :=
  ⟨(run_gate_lifecycle initApp).1 rfl,
   (run_gate_lifecycle readyApp).2 { readyApp with done := true } rfl⟩

/-! ## C10: nil filters are silently dropped before Ready -/

/-- C10: before the Ready transition, adding a nil filter is a silent
no-op (the filter sequence is unchanged), while a non-nil filter is
appended at the end of the sequence. -/
theorem addFilter_nil_noop (c : App) (h : c.ready = false) (f : Filter) :
    c.addFilter none = .ok c ∧
    c.addFilter (some f) = .ok { c with filters := c.filters ++ [f] } := by
  simp [App.addFilter, h]

/-- Witness for C10 at a concrete state. -/
theorem addFilter_nil_noop_witness :
    initApp.addFilter none = .ok initApp ∧
    initApp.addFilter (some 5) = .ok { initApp with filters := initApp.filters ++ [5] } :=
  addFilter_nil_noop initApp rfl 5

/-! ## C2: the reload queue coalesces bursts -/

lemma tryReload_le_one {p : Nat} (h : p ≤ 1) : tryReload p = 1 := by
  interval_cases p <;> simp [tryReload, reloadSignalCap]

lemma tryReloadN_fixed (n : Nat) : tryReloadN n 1 = 1 := by
  induction n with
  | zero => rfl
  | succ m ih => simpa [tryReloadN, tryReload, reloadSignalCap] using ih

/-- C2: the reload queue has capacity exactly 1 and `tryReload` never
blocks (it is a total function).  For any burst of `N ≥ 1` trigger calls
arriving while at most one request is pending, the occupancy never
exceeds 1, ends at exactly 1, and the worker performs between 1 and 2
reload executions: one possibly already in flight (`b`) plus the single
coalesced pending request — never `N`. -/
theorem reload_burst_coalesced (N p : Nat) (b : Bool)
    (hN : 1 ≤ N) (hp : p ≤ reloadSignalCap) :
    reloadSignalCap = 1 ∧
    (∀ k, tryReloadN k p ≤ 1) ∧
    tryReloadN N p = 1 ∧
    1 ≤ cond b 1 0 + tryReloadN N p ∧
    cond b 1 0 + tryReloadN N p ≤ 2 := by
  have hp1 : p ≤ 1 := hp
  have hstep : tryReload p = 1 := tryReload_le_one hp1
  have hall : ∀ k, tryReloadN k p ≤ 1 := by
    intro k
    cases k with
    | zero => simpa [tryReloadN] using hp1
    | succ m => simp [tryReloadN, hstep, tryReloadN_fixed]
  have hN1 : tryReloadN N p = 1 := by
    cases N with
    | zero => omega
    | succ m => simp [tryReloadN, hstep, tryReloadN_fixed]
  refine ⟨rfl, hall, hN1, ?_, ?_⟩ <;> cases b <;> simp [hN1]

/-- Witness for C2: a burst of 3 triggers on an empty queue with a reload
in flight yields occupancy 1 and at most 2 executions. -/
theorem reload_burst_coalesced_witness :
    tryReloadN 3 0 = 1 ∧ cond true 1 0 + tryReloadN 3 0 ≤ 2 :=
  ⟨(reload_burst_coalesced 3 0 true (by decide) (by decide)).2.2.1,
   (reload_burst_coalesced 3 0 true (by decide) (by decide)).2.2.2.2⟩

/-! ## C9: the reload worker is strictly sequential -/

/-- C9: servicing `n` dequeued requests, the worker's trace is exactly
`n` repetitions of [perform one reload, print the log, reset the fallback
timer to the configured refresh interval] — one reload per request, each
followed by a timer reset before the next request is awaited, with no
overlap between reloads. -/
theorem reload_worker_serialized (c : Config) (n : Nat) :
    reloadWorkerRun c n = (List.replicate n (reloadWorkerBody c)).flatten ∧
    (reloadWorkerRun c n).count .reload = n ∧
    (reloadWorkerRun c n).count (.resetTimer (reloadTimeout c)) = n := by
  induction n with
  | zero => simp [reloadWorkerRun]
  | succ m ih =>
    obtain ⟨hj, hc1, hc2⟩ := ih
    refine ⟨?_, ?_, ?_⟩
    · simp [reloadWorkerRun, List.replicate_succ, hj]
    · simp [reloadWorkerRun, reloadWorkerBody, List.count_append, List.count_cons, hc1]
    · simp [reloadWorkerRun, reloadWorkerBody, List.count_append, List.count_cons, hc2]

/-! ## C5: static mode buffers exactly one leadership event -/

/-- C5: with no ZK endpoint configured, `beginLeaderWatch` returns a
capacity-1 leader channel already holding exactly one buffered
leadership event and no watcher-error stream; feeding those buffered
events to the run loop enqueues exactly one initial reload request. -/
theorem static_mode_leader (c : App) (zkw : LeaderWatch) (h : c.config.zk = "") :
    beginLeaderWatch c zkw
      = { leaderCap := 1, leaderBuffered := 1, zkErrPresent := false } ∧
    runLoop 0 (initialEvents (beginLeaderWatch c zkw)) = (1, [.reloadRequest]) := by
  constructor <;>
    simp [beginLeaderWatch, h, initialEvents, runLoop, runStep, tryReload,
      reloadSignalCap, List.replicate]

/-- Witness for C5 at the concrete static-mode app. -/
theorem static_mode_leader_witness :
    beginLeaderWatch initApp { leaderCap := 0, leaderBuffered := 0, zkErrPresent := true }
      = { leaderCap := 1, leaderBuffered := 1, zkErrPresent := false } ∧
    runLoop 0 (initialEvents
        (beginLeaderWatch initApp { leaderCap := 0, leaderBuffered := 0, zkErrPresent := true }))
      = (1, [.reloadRequest]) :=
  static_mode_leader initApp { leaderCap := 0, leaderBuffered := 0, zkErrPresent := true } rfl

/-! ## C6: each leadership event triggers exactly one reload request -/

/-- C6: a leadership-acquired event makes the run loop invoke the
non-blocking reload request exactly once and nothing else: its action
list is exactly `[reloadRequest]`, and the queue occupancy becomes
`min (pending + 1) 1` — enqueued subject to capacity-1 coalescing. -/
theorem leader_event_one_reload (pending : Nat) (h : pending ≤ reloadSignalCap) :
    (runStep pending .newLeader).2 = [.reloadRequest] ∧
    (runStep pending .newLeader).1 = min (pending + 1) 1 := by
  refine ⟨rfl, ?_⟩
  have h1 : pending ≤ 1 := h
  simp only [runStep, tryReload, reloadSignalCap]
  split <;> omega

/-- Witness for C6 with a full queue: the request is still made exactly
once and coalesces away. -/
theorem leader_event_one_reload_witness :
    (runStep 1 .newLeader).2 = [.reloadRequest] ∧
    (runStep 1 .newLeader).1 = min 2 1 :=
  leader_event_one_reload 1 (by decide)

/-! ## C7: watcher errors are routed under the tag "ZK watcher" -/

/-- Counterexample to C7 as stated: a watcher error is routed to the
error handler tagged "ZK watcher", not "leader watcher". -/
theorem zk_error_tag_counterexample :
    (runStep 0 (.zkError "zk connection lost")).2
      = [.routeError "ZK watcher" "zk connection lost"] ∧
    (runStep 0 (.zkError "zk connection lost")).2
      ≠ [.routeError "leader watcher" "zk connection lost"] := by
  refine ⟨rfl, ?_⟩
  decide

/-- C7 (amended): every error received from the leader watcher's error
stream is forwarded by the run loop to the error handler tagged
"ZK watcher", as the single action of that iteration (no retry), leaving
the reload queue untouched. -/
theorem zk_error_routed (pending : Nat) (e : String) (evs : List Event) :
    runStep pending (.zkError e) = (pending, [.routeError "ZK watcher" e]) ∧
    (runLoop pending (.zkError e :: evs)).2
      = .routeError "ZK watcher" e :: (runLoop pending evs).2 := by
  exact ⟨rfl, rfl⟩

/-! ## C8: invalid plugin entries are logged and skipped -/

lemma launchThirdParty_append (resolve : String → Nat → Except String Nat)
    (xs ys : List PluginConfig) :
    (launchThirdParty resolve (xs ++ ys)).1
      = (launchThirdParty resolve xs).1 ++ (launchThirdParty resolve ys).1 ∧
    (launchThirdParty resolve (xs ++ ys)).2
      = (launchThirdParty resolve xs).2 ++ (launchThirdParty resolve ys).2 := by
  induction xs with
  | nil => simp [launchThirdParty]
  | cons pc rest ih =>
    by_cases h : pc.name = ""
    · simp [launchThirdParty, h, ih.1, ih.2]
    · cases hres : resolve pc.name pc.settings <;>
        simp [launchThirdParty, h, hres, ih.1, ih.2]

lemma launchThirdParty_filterMap (resolve : String → Nat → Except String Nat)
    (ps : List PluginConfig) :
    (launchThirdParty resolve ps).1 = ps.filterMap (launchOne resolve) := by
  induction ps with
  | nil => rfl
  | cons pc rest ih =>
    by_cases h : pc.name = ""
    · simp [launchThirdParty, launchOne, h, ih]
    · cases hres : resolve pc.name pc.settings <;>
        simp [launchThirdParty, launchOne, h, hres, ih]

/-- C8: a plugin entry with an empty name, or whose resolution fails, is
skipped with one log line, and every entry after it is still processed:
the launched list of `xs ++ bad :: ys` is that of `xs` followed by that
of `ys`, one extra log line is emitted, and in general the launched list
follows the configured order (`filterMap` characterization). -/
theorem bad_plugin_skipped (resolve : String → Nat → Except String Nat)
    (xs ys : List PluginConfig) (bad : PluginConfig)
    (h : bad.name = "" ∨ ∃ e, resolve bad.name bad.settings = .error e) :
    (launchThirdParty resolve (xs ++ bad :: ys)).1
      = (launchThirdParty resolve xs).1 ++ (launchThirdParty resolve ys).1 ∧
    (launchThirdParty resolve (xs ++ bad :: ys)).2.length
      = (launchThirdParty resolve xs).2.length + 1
        + (launchThirdParty resolve ys).2.length ∧
    (∀ ps, (launchThirdParty resolve ps).1 = ps.filterMap (launchOne resolve)) := by
  obtain ⟨ha1, ha2⟩ := launchThirdParty_append resolve xs (bad :: ys)
  have hb : (launchThirdParty resolve (bad :: ys)).1
        = (launchThirdParty resolve ys).1 ∧
      (launchThirdParty resolve (bad :: ys)).2.length
        = (launchThirdParty resolve ys).2.length + 1 := by
    rcases h with h | ⟨e, he⟩
    · simp [launchThirdParty, h]
    · by_cases hn : bad.name = ""
      · simp [launchThirdParty, hn]
      · simp [launchThirdParty, hn, he]
  refine ⟨?_, ?_, launchThirdParty_filterMap resolve⟩
  · rw [ha1, hb.1]
  · rw [ha2]
    simp [List.length_append, hb.2]
    omega

/-- `plugins.New` as seen by the witness: resolution fails for the name
"bad" and yields a handle otherwise. -/
def sampleResolve : String → Nat → Except String Nat :=
  fun name settings => if name = "bad" then .error "unknown plugin" else .ok settings

/-- Witness for C8: an empty-named entry between two valid entries is
skipped while both neighbours still launch, in order. -/
theorem bad_plugin_skipped_witness :
    (launchThirdParty sampleResolve
        ([{ name := "p1", settings := 1 }] ++ { name := "", settings := 0 }
          :: [{ name := "p2", settings := 2 }])).1
      = (launchThirdParty sampleResolve [{ name := "p1", settings := 1 }]).1
        ++ (launchThirdParty sampleResolve [{ name := "p2", settings := 2 }]).1 :=
  (bad_plugin_skipped sampleResolve [{ name := "p1", settings := 1 }]
    [{ name := "p2", settings := 2 }] { name := "", settings := 0 } (Or.inl rfl)).1

/-! ## C4: the Config accessor sanitizes and defensively copies -/

lemma readSlice_append_lt (st l : Store) (r : Nat) (h : r < st.length) :
    readSlice (st ++ l) r = readSlice st r := by
  simp [readSlice, List.getElem?_append_left h]

lemma readSlice_concat_self (st : Store) (xs : List String) :
    readSlice (st ++ [xs]) st.length = xs := by
  simp [readSlice, List.getElem?_concat_length]

lemma readSlice_set_ne (st : Store) (i r : Nat) (xs : List String) (h : i ≠ r) :
    readSlice (writeSlice st i xs) r = readSlice st r := by
  simp [readSlice, writeSlice, List.getElem?_set_ne h]

/-- The snapshot's master slice is a fresh reference holding the same
contents as the internal master slice. -/
lemma accessor_masters_content (a : App) :
    readSlice a.configAccessor.1.store a.configAccessor.2.masters
      = readSlice a.store a.config.masters := by
  simp only [App.configAccessor, allocSlice]
  rw [readSlice_append_lt _ _ _ (by simp), readSlice_concat_self]

/-- The snapshot's resolver slice is a fresh reference holding the same
contents as the internal resolver slice. -/
lemma accessor_resolvers_content (a : App) (hr : a.config.resolvers < a.store.length) :
    readSlice a.configAccessor.1.store a.configAccessor.2.resolvers
      = readSlice a.store a.config.resolvers := by
  simp only [App.configAccessor, allocSlice]
  rw [readSlice_concat_self, readSlice_append_lt _ _ _ hr]

/-- The accessor only appends fresh slices: every live reference reads the
same contents afterwards. -/
lemma accessor_preserves_read (a : App) (r : Nat) (h : r < a.store.length) :
    readSlice a.configAccessor.1.store r = readSlice a.store r := by
  simp only [App.configAccessor, allocSlice]
  rw [readSlice_append_lt _ _ _ (by simpa using Nat.lt_succ_of_lt h),
    readSlice_append_lt _ _ _ h]

/-- Mutate a returned snapshot in place: overwrite the contents of its
master and resolver slices (what a caller scribbling on the returned
`*records.Config`'s slices would do). -/
def mutateSnapshot (a : App) (cfg : Config) (xs ys : List String) : App :=
  { a with store := writeSlice (writeSlice a.store cfg.masters xs) cfg.resolvers ys }

/-- C4: the accessor's snapshot has its plugin settings stripped, its
master/resolver lists are element-equal copies at references distinct
from the internal ones, the internal configuration and its slices are
left unchanged, and mutating the returned snapshot's slices never
changes what a subsequent accessor call returns. -/
theorem config_accessor_snapshot_safe (a : App) (h : a.WF) :
    a.configAccessor.2.plugins = none ∧
    readSlice a.configAccessor.1.store a.configAccessor.2.masters
      = readSlice a.store a.config.masters ∧
    readSlice a.configAccessor.1.store a.configAccessor.2.resolvers
      = readSlice a.store a.config.resolvers ∧
    a.configAccessor.2.masters ≠ a.config.masters ∧
    a.configAccessor.2.resolvers ≠ a.config.resolvers ∧
    a.configAccessor.1.config = a.config ∧
    readSlice a.configAccessor.1.store a.config.masters
      = readSlice a.store a.config.masters ∧
    readSlice a.configAccessor.1.store a.config.resolvers
      = readSlice a.store a.config.resolvers ∧
    (∀ xs ys,
      readSlice (mutateSnapshot a.configAccessor.1 a.configAccessor.2 xs ys).store
          a.config.masters = readSlice a.store a.config.masters ∧
      readSlice (mutateSnapshot a.configAccessor.1 a.configAccessor.2 xs ys).store
          a.config.resolvers = readSlice a.store a.config.resolvers ∧
      readSlice (mutateSnapshot a.configAccessor.1 a.configAccessor.2 xs ys).configAccessor.1.store
          (mutateSnapshot a.configAccessor.1 a.configAccessor.2 xs ys).configAccessor.2.masters
        = readSlice a.store a.config.masters ∧
      readSlice (mutateSnapshot a.configAccessor.1 a.configAccessor.2 xs ys).configAccessor.1.store
          (mutateSnapshot a.configAccessor.1 a.configAccessor.2 xs ys).configAccessor.2.resolvers
        = readSlice a.store a.config.resolvers) := by
  obtain ⟨hm, hr⟩ := h
  have eLm : a.configAccessor.2.masters = a.store.length := rfl
  have eLr : a.configAccessor.2.resolvers = a.store.length + 1 := by
    simp [App.configAccessor, allocSlice]
  have eLen : a.configAccessor.1.store.length = a.store.length + 2 := by
    simp [App.configAccessor, allocSlice]
  have neMM : a.configAccessor.2.masters ≠ a.config.masters := by
    rw [eLm]; omega
  have neMR : a.configAccessor.2.masters ≠ a.config.resolvers := by
    rw [eLm]; omega
  have neRM : a.configAccessor.2.resolvers ≠ a.config.masters := by
    rw [eLr]; omega
  have neRR : a.configAccessor.2.resolvers ≠ a.config.resolvers := by
    rw [eLr]; omega
  refine ⟨rfl, accessor_masters_content a, accessor_resolvers_content a hr,
    neMM, neRR, rfl,
    accessor_preserves_read a _ hm, accessor_preserves_read a _ hr, ?_⟩
  intro xs ys
  have hcfg : (mutateSnapshot a.configAccessor.1 a.configAccessor.2 xs ys).config
      = a.config := rfl
  have hst : (mutateSnapshot a.configAccessor.1 a.configAccessor.2 xs ys).store
      = writeSlice (writeSlice a.configAccessor.1.store a.configAccessor.2.masters xs)
          a.configAccessor.2.resolvers ys := rfl
  have hreadm : readSlice (mutateSnapshot a.configAccessor.1 a.configAccessor.2 xs ys).store
      a.config.masters = readSlice a.store a.config.masters := by
    rw [hst, readSlice_set_ne _ _ _ _ neRM, readSlice_set_ne _ _ _ _ neMM,
      accessor_preserves_read a _ hm]
  have hreadr : readSlice (mutateSnapshot a.configAccessor.1 a.configAccessor.2 xs ys).store
      a.config.resolvers = readSlice a.store a.config.resolvers := by
    rw [hst, readSlice_set_ne _ _ _ _ neRR, readSlice_set_ne _ _ _ _ neMR,
      accessor_preserves_read a _ hr]
  have hlen : (mutateSnapshot a.configAccessor.1 a.configAccessor.2 xs ys).store.length
      = a.store.length + 2 := by
    rw [hst]
    simp [writeSlice, eLen]
  refine ⟨hreadm, hreadr, ?_, ?_⟩
  · rw [accessor_masters_content (mutateSnapshot a.configAccessor.1 a.configAccessor.2 xs ys),
      hcfg]
    exact hreadm
  · have hr' : (mutateSnapshot a.configAccessor.1 a.configAccessor.2 xs ys).config.resolvers
        < (mutateSnapshot a.configAccessor.1 a.configAccessor.2 xs ys).store.length := by
      rw [hcfg, hlen]
      omega
    rw [accessor_resolvers_content _ hr', hcfg]
    exact hreadr

/-- Witness for C4 at the concrete app: stripped plugins, element-equal
master copy, and a genuinely fresh (non-aliasing) reference. -/
theorem config_accessor_snapshot_safe_witness :
    initApp.configAccessor.2.plugins = none ∧
    readSlice initApp.configAccessor.1.store initApp.configAccessor.2.masters
      = readSlice initApp.store initApp.config.masters ∧
    initApp.configAccessor.2.masters ≠ initApp.config.masters :=
  ⟨(config_accessor_snapshot_safe initApp (by decide)).1,
   (config_accessor_snapshot_safe initApp (by decide)).2.1,
   (config_accessor_snapshot_safe initApp (by decide)).2.2.2.1⟩

end MesosDNS
